import Mathlib

/-!
Shallow embedding of `src/main.py` (pptwiz): the Slack event handler
`slack_events`, the session/dedup state, the content extractor `extract`,
and the SlideSpeak polling loop `slide_url`.

Conventions of the embedding:
* Python dicts used as maps (`sessions`, `asked_flag`, `dedup`) are modelled
  as association lists with the usual lookup/insert/erase helpers.
* Wall-clock timestamps (`datetime.utcnow().timestamp()`) are modelled as
  natural numbers of seconds; `now - t > 300` uses truncated subtraction,
  which agrees with the Python comparison whenever `t ≤ now` and is `False`
  for `t > now`, just as a negative float difference is.
* Python string slicing `s[:4000]` is modelled as taking the first 4000
  code points (`pyslice`); `str.lower`/`str.strip` are modelled by
  `pylower` (`Char.toLower` on every code point) and `pystrip` (drop
  leading and trailing whitespace code points).
* Network sends (`c.post` to Slack) are modelled as emitted messages
  collected in a list; the code never inspects the response of these posts,
  so their outcome does not influence control flow, and neither does it in
  the model.
* The unbounded `while True` polling loop of `slide_url` is modelled by a
  fuel-indexed function `slide_urlAux`: `none` means the loop is still
  running after the given number of poll iterations (each iteration sleeps
  4 seconds in the source).
-/

namespace PPTWiz

/-- Association-list lookup, modelling Python `dict` access (`k in d`, `d.get(k)`). -/
def mapLookup (k : String) : List (String × α) → Option α
  | [] => none
  | (k', v) :: rest => if k' = k then some v else mapLookup k rest

/-- Association-list insert, modelling Python `d[k] = v`. -/
def mapInsert (k : String) (v : α) (m : List (String × α)) : List (String × α) :=
  (k, v) :: m.filter (fun p => p.1 ≠ k)

/-- Association-list erase, modelling Python `d.pop(k, None)`. -/
def mapErase (k : String) (m : List (String × α)) : List (String × α) :=
  m.filter (fun p => p.1 ≠ k)

/-- Python string slicing `s[:n]` (first `n` code points). -/
def pyslice (s : String) (n : Nat) : String :=
  ⟨s.data.take n⟩

/-- Python `s.endswith(suf)`: `suf` is a suffix of `s` (by code points). -/
def endswith (s suf : String) : Bool :=
  suf.data.isSuffixOf s.data

/-! ## `extract` (src/main.py lines 44–55)

The parsed contents of the file at a given path are abstracted into a
`FileData` record: `xlsxRows` are the rows of the first sheet
(`pd.read_excel(path, sheet_name=0)`), `pdfPages` the per-page results of
`PdfReader(path).pages[i].extract_text()` (`none` when that call returns
`None`), `docxParas` the paragraph texts of `Document(path).paragraphs`,
and `txtContent` the full text of the file. -/

structure FileData where
  xlsxRows : List (List String)
  pdfPages : List (Option String)
  docxParas : List String
  txtContent : String
deriving DecidableEq, Repr

/-- Rendering of `df.head(20).to_markdown(index=False)`: a markdown table of
the given rows. The exact cell formatting pandas performs is irrelevant to
the claims; what matters is that it is a function of the rows it is given. -/
def xlsxMarkdown (rows : List (List String)) : String :=
  String.intercalate "\n"
    (rows.map (fun r => "| " ++ String.intercalate " | " r ++ " |"))

/-- `extract(path)` from src/main.py lines 44–55. -/
def extract (path : String) (fd : FileData) : String :=
  if endswith path ".xlsx" then
    xlsxMarkdown (fd.xlsxRows.take 20)
  else if endswith path ".pdf" then
    pyslice (String.intercalate "\n" (fd.pdfPages.map (fun p => p.getD ""))) 4000
  else if endswith path ".docx" then
    pyslice (String.intercalate "\n" fd.docxParas) 4000
  else if endswith path ".txt" then
    pyslice fd.txtContent 4000
  else
    ""

/-! ## `slide_url` polling loop (src/main.py lines 70–83)

After submission (`task = r.json()["task_id"]`), the code enters
`while True`, fetching `task_status` each iteration: on `"SUCCESS"` it
returns the result URL, on `"FAILED"` it returns the literal string
`"Erro ao gerar PPT."`, and on anything else it sleeps 4 seconds and polls
again.  The service's behaviour is a stream `poll : Nat → PollResponse`
giving the response to the `i`-th status fetch; the loop is unrolled with
fuel, `none` meaning the loop has not produced a value after that many
iterations. -/

structure PollResponse where
  task_status : String
  result_url : String
deriving DecidableEq, Repr

/-- One fuel-indexed unrolling of the `while True` loop of `slide_url`,
starting at the `i`-th poll. -/
def slide_urlAux (poll : Nat → PollResponse) : Nat → Nat → Option String
  | _, 0 => none
  | i, fuel + 1 =>
    let d := poll i
    if d.task_status = "SUCCESS" then some d.result_url
    else if d.task_status = "FAILED" then some "Erro ao gerar PPT."
    else slide_urlAux poll (i + 1) fuel

/-- The polling loop of `slide_url`, from the first poll. -/
def slide_urlRun (poll : Nat → PollResponse) (fuel : Nat) : Option String :=
  slide_urlAux poll 0 fuel

/-- A service that never reports a terminal status: every poll answers
`RUNNING`. -/
def alwaysRunning : Nat → PollResponse := fun _ => ⟨"RUNNING", ""⟩

/-- A service that reports `FAILED` on the first poll. -/
def failsImmediately : Nat → PollResponse := fun _ => ⟨"FAILED", ""⟩

/-! ## Slack events handler (src/main.py lines 85–176)

The three module-level dicts `sessions`, `asked_flag` and `dedup` form the
mutable state (`BotState`); the inbound Slack event `ev` is modelled by
`SlackEvent` (fields the handler reads; `ts`, `user` and `channel` are
required fields of Slack message events and the code accesses them with
`ev[...]`, so they are plain strings here; the ones read with `ev.get` are
`Option`s).  External collaborators (file download, OpenAI plus the
SlideSpeak call) are an `Env` of response functions. -/

structure FileRef where
  url_private_download : String
deriving DecidableEq, Repr

structure SlackEvent where
  bot_id : Option String
  client_msg_id : Option String
  ts : String
  thread_ts : Option String
  user : String
  channel : String
  channel_type : Option String
  text : Option String
  files : List FileRef
deriving DecidableEq, Repr

/-- One entry of `sessions`: `{"pedido": ..., "texto": ...}`. -/
structure Session where
  pedido : String
  texto : String
deriving DecidableEq, Repr

/-- The module-level mutable dicts of src/main.py lines 86, 87 and 95. -/
structure BotState where
  sessions : List (String × Session)
  asked_flag : List (String × Bool)
  dedup : List (String × Nat)
deriving DecidableEq, Repr

/-- The collaborators the handler awaits:
* `download url` is `download_slack(url)` — `some path` on HTTP 200,
  `none` otherwise;
* `fileData path` is the parsed content of the file stored at `path`,
  consumed by `extract`;
* `genAttempt texto pedido` is the combined outcome of
  `gerar_roteiro(sess["texto"], sess["pedido"])` followed by
  `slide_url(roteiro_json)`: `.ok url` when both complete normally
  returning `url`, `.error e` when either raises (every exception is
  caught by the handler's bare `except`). -/
structure Env where
  download : String → Option String
  fileData : String → FileData
  genAttempt : String → String → Except String String

/-- Python's falsy-coalescing `a or b` on an optional string: `None` and
`""` both fall through to `b`. -/
def pyOr (a : Option String) (b : String) : String :=
  match a with
  | some s => if s = "" then b else s
  | none => b

/-- `cid = ev.get("client_msg_id") or ev.get("ts")` (line 120). -/
def eventCid (ev : SlackEvent) : String :=
  pyOr ev.client_msg_id ev.ts

/-- `sess_key(ev)` (lines 89–92). -/
def sess_key (ev : SlackEvent) : String :=
  if ev.channel_type = some "im" then ev.user
  else pyOr ev.thread_ts ev.ts

/-- The purge in `is_duplicate` (lines 98–100): drop every record strictly
older than 300 seconds. -/
def dedupPurge (now : Nat) (d : List (String × Nat)) : List (String × Nat) :=
  d.filter (fun p => ¬ (now - p.2 > 300))

/-- `is_duplicate(cid)` (lines 96–104), with the mutation of the `dedup`
dict made explicit: returns the boolean result and the updated dict. -/
def is_duplicate (cid : String) (now : Nat) (d : List (String × Nat)) :
    Bool × List (String × Nat) :=
  let d2 := dedupPurge now d
  if (mapLookup cid d2).isSome then (true, d2)
  else (false, (cid, now) :: d2)

/-- Python `str.lower`, code point by code point. -/
def pylower (s : String) : String :=
  ⟨s.data.map Char.toLower⟩

/-- Python `str.strip`: remove leading and trailing whitespace. -/
def pystrip (s : String) : String :=
  ⟨((s.data.dropWhile Char.isWhitespace).reverse.dropWhile
      Char.isWhitespace).reverse⟩

/-- `msg_low = ev.get("text", "").lower().strip()` (line 139). -/
def msg_low (ev : SlackEvent) : String :=
  pystrip (pylower (ev.text.getD ""))

/-- Membership in the trigger set `{"gera", "pronto"}` (lines 143, 153). -/
def isTrigger (s : String) : Bool :=
  s = "gera" || s = "pronto"

/-- `channel = ev["user"] if ev.get("channel_type") == "im" else ev["channel"]`
(line 138). -/
def channelOf (ev : SlackEvent) : String :=
  if ev.channel_type = some "im" then ev.user else ev.channel

/-- `asked_flag.get(key)` coerced to a boolean (only `True` is ever stored,
so absence is the only falsy case). -/
def askedGet (st : BotState) (key : String) : Bool :=
  (mapLookup key st.asked_flag).getD false

/-- `if txt := ev.get("text"): sess["pedido"] += " " + txt` (lines 129–130);
the walrus condition is falsy for a missing and for an empty text. -/
def collectText (ev : SlackEvent) (s : Session) : Session :=
  match ev.text with
  | some t => if t = "" then s else { s with pedido := s.pedido ++ " " ++ t }
  | none => s

/-- `if ev.get("files"): ...` (lines 132–135): download the first file's
`url_private_download`; when the download succeeds, append the extracted
text to `sess["texto"]` with a leading newline. -/
def collectFile (env : Env) (ev : SlackEvent) (s : Session) : Session :=
  match ev.files with
  | [] => s
  | f :: _ =>
    match env.download f.url_private_download with
    | some path => { s with texto := s.texto ++ "\n" ++ extract path (env.fileData path) }
    | none => s

/-- The whole collect block (lines 128–136): text first, then files. -/
def collect (env : Env) (ev : SlackEvent) (s : Session) : Session :=
  collectFile env ev (collectText ev s)

/-- A `chat.postMessage` call: the payload fields the handler fills in. -/
structure OutMsg where
  channel : String
  thread_ts : Option String
  text : String
deriving DecidableEq, Repr

/-- The acknowledgement prompt posted on the first interaction (lines 144–148). -/
def promptMsg (ev : SlackEvent) : OutMsg :=
  ⟨channelOf ev, some (pyOr ev.thread_ts ev.ts),
   "✅ Recebi! Envie mais detalhes ou arquivos e digite *gera* quando acabar."⟩

/-- `"thread_ts": key if ev.get("channel_type") != "im" else None`
(lines 157, 169). -/
def genThread (ev : SlackEvent) : Option String :=
  if ev.channel_type = some "im" then none else some (sess_key ev)

/-- `"⏳ Gerando apresentação, aguarde…"` (line 158). -/
def workingMsg (ev : SlackEvent) : OutMsg :=
  ⟨channelOf ev, genThread ev, "⏳ Gerando apresentação, aguarde…"⟩

/-- The terminal message (line 170): the one outbound template
`f"Aqui está sua apresentação: {url}"`, whatever `url` holds. -/
def finalMsg (ev : SlackEvent) (url : String) : OutMsg :=
  ⟨channelOf ev, genThread ev, "Aqui está sua apresentação: " ++ url⟩

/-- The contribution of one event to `sess["pedido"]`: nothing for a missing
or empty text, otherwise a space followed by the text (closed form of
`collectText`). -/
def pedidoAdd (ev : SlackEvent) : String :=
  match ev.text with
  | some t => if t = "" then "" else " " ++ t
  | none => ""

/-- The contribution of one event to `sess["texto"]`: nothing when the event
carries no files or the first file's download fails, otherwise a newline
followed by the extraction of the first file (closed form of `collectFile`). -/
def textoAdd (env : Env) (ev : SlackEvent) : String :=
  match ev.files with
  | [] => ""
  | f :: _ =>
    match env.download f.url_private_download with
    | some path => "\n" ++ extract path (env.fileData path)
    | none => ""

/-- The value of `url` after the `try`/`except` (lines 159–164): the result
of the generation attempt when it completed normally, the sentinel string
when any exception was raised. -/
def urlOf (r : Except String String) : String :=
  match r with
  | .ok u => u
  | .error _ => "Erro ao gerar PPT."

/-- Which return path of `slack_events` was taken. -/
inductive Outcome
  | selfBot
  | duplicate
  | prompted
  | accumulated
  | dispatched
deriving DecidableEq, Repr

structure HandleResult where
  outcome : Outcome
  messages : List OutMsg
  state : BotState
deriving DecidableEq, Repr

/-- `slack_events` (src/main.py lines 107–176) for one already-parsed event
payload (the `url_verification` early return concerns the envelope, not an
event, and is outside this model).  `now` is the value
`datetime.datetime.utcnow().timestamp()` reads inside `is_duplicate`. -/
def handleEvent (env : Env) (now : Nat) (ev : SlackEvent) (st : BotState) :
    HandleResult :=
  if ev.bot_id.isSome then ⟨.selfBot, [], st⟩
  else
    let dup := is_duplicate (eventCid ev) now st.dedup
    let st1 : BotState := { st with dedup := dup.2 }
    if dup.1 then ⟨.duplicate, [], st1⟩
    else
      let key := sess_key ev
      let sess := collect env ev ((mapLookup key st1.sessions).getD ⟨"", ""⟩)
      let st2 : BotState := { st1 with sessions := mapInsert key sess st1.sessions }
      if !isTrigger (msg_low ev) && !askedGet st2 key then
        ⟨.prompted, [promptMsg ev],
         { st2 with asked_flag := mapInsert key true st2.asked_flag }⟩
      else if isTrigger (msg_low ev) then
        let url := urlOf (env.genAttempt sess.texto sess.pedido)
        ⟨.dispatched, [workingMsg ev, finalMsg ev url],
         { st2 with sessions := mapErase key st2.sessions,
                    asked_flag := mapErase key st2.asked_flag }⟩
      else
        ⟨.accumulated, [], st2⟩

/-- Sequential handling of a batch of timed events, collecting every
outbound message in order. -/
def handleEvents (env : Env) : List (Nat × SlackEvent) → BotState → BotState × List OutMsg
  | [], st => (st, [])
  | (now, ev) :: rest, st =>
    let r := handleEvent env now ev st
    let (st', msgs) := handleEvents env rest r.state
    (st', r.messages ++ msgs)

/-! ## Concrete instances used to evaluate the model -/

/-- An environment with no reachable files and a generation attempt that
raises (caught by the bare `except`). -/
def errEnv : Env :=
  ⟨fun _ => none, fun _ => ⟨[], [], [], ""⟩, fun _ _ => .error "HTTPError"⟩

/-- An environment whose generation attempt completes normally, returning
`url` (as `slide_url` does both on `SUCCESS` and on `FAILED`). -/
def okEnv (url : String) : Env :=
  ⟨fun _ => none, fun _ => ⟨[], [], [], ""⟩, fun _ _ => .ok url⟩

/-- An environment where every file downloads to a `.txt` temp path; the
file at `f1.txt` holds `"ONE"`, every other file holds `"TWO"`. -/
def txtEnv : Env :=
  ⟨fun u => some (u ++ ".txt"),
   fun p => ⟨[], [], [], if p = "f1.txt" then "ONE" else "TWO"⟩,
   fun _ _ => .error "e"⟩

/-- A direct-message event (channel_type `"im"`) from user `U1`. -/
def dmEvent (cmid : Option String) (ts txt : String) : SlackEvent :=
  ⟨none, cmid, ts, none, "U1", "C1", some "im", some txt, []⟩

/-- A direct-message event carrying file references. -/
def dmFileEvent (cmid : Option String) (ts txt : String) (fs : List FileRef) :
    SlackEvent :=
  ⟨none, cmid, ts, none, "U1", "C1", some "im", some txt, fs⟩

/-- The state of the freshly started process: all three dicts empty. -/
def emptyState : BotState := ⟨[], [], []⟩

/-- Plain concatenation of a list of strings (used to state the accumulated
shape of a session after a batch of events). -/
def concatAll : List String → String
  | [] => ""
  | s :: rest => s ++ concatAll rest

/-! ## Map helper lemmas -/

theorem mapLookup_cons (k a : String) (b : α) (rest : List (String × α)) :
    mapLookup k ((a, b) :: rest) = if a = k then some b else mapLookup k rest :=
  rfl

theorem mapErase_cons (k a : String) (b : α) (rest : List (String × α)) :
    mapErase k ((a, b) :: rest) =
      if a = k then mapErase k rest else (a, b) :: mapErase k rest := by
  by_cases h : a = k <;> simp [mapErase, List.filter_cons, h]

theorem mapInsert_eq_cons_erase (k : String) (v : α) (m : List (String × α)) :
    mapInsert k v m = (k, v) :: mapErase k m :=
  rfl

theorem mapLookup_mapErase_ne (k k0 : String) (m : List (String × α)) (h : k ≠ k0) :
    mapLookup k (mapErase k0 m) = mapLookup k m := by
  induction m with
  | nil => rfl
  | cons p rest ih =>
    obtain ⟨a, b⟩ := p
    rw [mapErase_cons]
    by_cases hp : a = k0
    · have hak : a ≠ k := fun hh => h (hh ▸ hp)
      rw [if_pos hp, mapLookup_cons, if_neg hak, ih]
    · rw [if_neg hp, mapLookup_cons, mapLookup_cons, ih]

theorem mapLookup_mapErase_self (k : String) (m : List (String × α)) :
    mapLookup k (mapErase k m) = none := by
  induction m with
  | nil => rfl
  | cons p rest ih =>
    obtain ⟨a, b⟩ := p
    rw [mapErase_cons]
    by_cases hp : a = k
    · rw [if_pos hp, ih]
    · rw [if_neg hp, mapLookup_cons, if_neg hp, ih]

theorem mapLookup_mapInsert_self (k : String) (v : α) (m : List (String × α)) :
    mapLookup k (mapInsert k v m) = some v := by
  rw [mapInsert_eq_cons_erase, mapLookup_cons, if_pos rfl]

theorem mapLookup_mapInsert_ne (k k0 : String) (v : α) (m : List (String × α))
    (h : k ≠ k0) :
    mapLookup k (mapInsert k0 v m) = mapLookup k m := by
  have h0 : k0 ≠ k := fun hh => h hh.symm
  rw [mapInsert_eq_cons_erase, mapLookup_cons, if_neg h0,
    mapLookup_mapErase_ne k k0 m h]

/-! ## Dedup helper lemmas -/

theorem dedupPurge_cons (now : Nat) (a : String) (t : Nat)
    (rest : List (String × Nat)) :
    dedupPurge now ((a, t) :: rest) =
      if now - t > 300 then dedupPurge now rest
      else (a, t) :: dedupPurge now rest := by
  by_cases hkeep : now - t > 300 <;>
    simp [dedupPurge, List.filter_cons, hkeep] <;> omega

theorem mem_dedupPurge (now : Nat) (d : List (String × Nat)) (p : String × Nat)
    (hp : p ∈ dedupPurge now d) : now - p.2 ≤ 300 := by
  have := List.of_mem_filter hp
  simpa using this

theorem mapLookup_dedupPurge_none (k : String) (now : Nat) (d : List (String × Nat))
    (h : mapLookup k d = none) : mapLookup k (dedupPurge now d) = none := by
  induction d with
  | nil => rfl
  | cons p rest ih =>
    obtain ⟨a, t⟩ := p
    rw [mapLookup_cons] at h
    by_cases hak : a = k
    · rw [if_pos hak] at h
      exact absurd h (by simp)
    · rw [if_neg hak] at h
      rw [dedupPurge_cons]
      by_cases hkeep : now - t > 300
      · rw [if_pos hkeep, ih h]
      · rw [if_neg hkeep, mapLookup_cons, if_neg hak, ih h]

theorem mapLookup_dedupPurge_some (k : String) (now t : Nat) (d : List (String × Nat))
    (h : mapLookup k d = some t) (hw : now - t ≤ 300) :
    mapLookup k (dedupPurge now d) = some t := by
  induction d with
  | nil => exact absurd h (by simp [mapLookup])
  | cons p rest ih =>
    obtain ⟨a, u⟩ := p
    rw [mapLookup_cons] at h
    rw [dedupPurge_cons]
    by_cases hak : a = k
    · rw [if_pos hak] at h
      have hu : u = t := by simpa using h
      subst hu
      have hkeep : ¬ now - u > 300 := by omega
      rw [if_neg hkeep, mapLookup_cons, if_pos hak]
    · rw [if_neg hak] at h
      by_cases hkeep : now - u > 300
      · rw [if_pos hkeep, ih h]
      · rw [if_neg hkeep, mapLookup_cons, if_neg hak, ih h]

theorem is_duplicate_fresh (cid : String) (now : Nat) (d : List (String × Nat))
    (h : mapLookup cid d = none) :
    is_duplicate cid now d = (false, (cid, now) :: dedupPurge now d) := by
  simp [is_duplicate, mapLookup_dedupPurge_none cid now d h]

theorem is_duplicate_hit (cid : String) (now t : Nat) (d : List (String × Nat))
    (h : mapLookup cid d = some t) (hw : now - t ≤ 300) :
    is_duplicate cid now d = (true, dedupPurge now d) := by
  simp [is_duplicate, mapLookup_dedupPurge_some cid now t d h hw]

/-! ## Branch-unfolding lemmas for `handleEvent` -/

theorem handleEvent_dup_eq (env : Env) (now : Nat) (ev : SlackEvent) (st : BotState)
    (t : Nat) (hb : ev.bot_id = none)
    (ht : mapLookup (eventCid ev) st.dedup = some t) (hw : now - t ≤ 300) :
    handleEvent env now ev st =
      ⟨.duplicate, [], ⟨st.sessions, st.asked_flag, dedupPurge now st.dedup⟩⟩ := by
  simp [handleEvent, hb, is_duplicate_hit (eventCid ev) now t st.dedup ht hw]

theorem handleEvent_prompted_eq (env : Env) (now : Nat) (ev : SlackEvent)
    (st : BotState) (hb : ev.bot_id = none)
    (hfresh : mapLookup (eventCid ev) st.dedup = none)
    (hnt : isTrigger (msg_low ev) = false)
    (hask : (mapLookup (sess_key ev) st.asked_flag).getD false = false) :
    handleEvent env now ev st =
      ⟨.prompted, [promptMsg ev],
       ⟨mapInsert (sess_key ev)
          (collect env ev ((mapLookup (sess_key ev) st.sessions).getD ⟨"", ""⟩))
          st.sessions,
        mapInsert (sess_key ev) true st.asked_flag,
        (eventCid ev, now) :: dedupPurge now st.dedup⟩⟩ := by
  simp [handleEvent, hb, is_duplicate_fresh (eventCid ev) now st.dedup hfresh,
    hnt, askedGet, hask]

theorem handleEvent_accumulated_eq (env : Env) (now : Nat) (ev : SlackEvent)
    (st : BotState) (hb : ev.bot_id = none)
    (hfresh : mapLookup (eventCid ev) st.dedup = none)
    (hnt : isTrigger (msg_low ev) = false)
    (hask : (mapLookup (sess_key ev) st.asked_flag).getD false = true) :
    handleEvent env now ev st =
      ⟨.accumulated, [],
       ⟨mapInsert (sess_key ev)
          (collect env ev ((mapLookup (sess_key ev) st.sessions).getD ⟨"", ""⟩))
          st.sessions,
        st.asked_flag,
        (eventCid ev, now) :: dedupPurge now st.dedup⟩⟩ := by
  simp [handleEvent, hb, is_duplicate_fresh (eventCid ev) now st.dedup hfresh,
    hnt, askedGet, hask]

theorem handleEvent_dispatched_eq (env : Env) (now : Nat) (ev : SlackEvent)
    (st : BotState) (hb : ev.bot_id = none)
    (hfresh : mapLookup (eventCid ev) st.dedup = none)
    (htrig : isTrigger (msg_low ev) = true) :
    handleEvent env now ev st =
      ⟨.dispatched,
       [workingMsg ev,
        finalMsg ev (urlOf (env.genAttempt
          (collect env ev ((mapLookup (sess_key ev) st.sessions).getD ⟨"", ""⟩)).texto
          (collect env ev ((mapLookup (sess_key ev) st.sessions).getD ⟨"", ""⟩)).pedido))],
       ⟨mapErase (sess_key ev)
          (mapInsert (sess_key ev)
            (collect env ev ((mapLookup (sess_key ev) st.sessions).getD ⟨"", ""⟩))
            st.sessions),
        mapErase (sess_key ev) st.asked_flag,
        (eventCid ev, now) :: dedupPurge now st.dedup⟩⟩ := by
  simp [handleEvent, hb, is_duplicate_fresh (eventCid ev) now st.dedup hfresh, htrig]

theorem handleEvent_dedup_state (env : Env) (now : Nat) (ev : SlackEvent)
    (st : BotState) (hb : ev.bot_id = none) :
    (handleEvent env now ev st).state.dedup =
      (is_duplicate (eventCid ev) now st.dedup).2 := by
  simp only [handleEvent, hb, Option.isSome_none, Bool.false_eq_true, if_false]
  split
  · rfl
  · split
    · rfl
    · split <;> rfl

theorem handleEvent_fresh_not_dup (env : Env) (now : Nat) (ev : SlackEvent)
    (st : BotState) (hb : ev.bot_id = none)
    (hfresh : mapLookup (eventCid ev) st.dedup = none) :
    (handleEvent env now ev st).outcome ≠ .duplicate := by
  simp only [handleEvent, hb, Option.isSome_none, Bool.false_eq_true, if_false,
    is_duplicate_fresh (eventCid ev) now st.dedup hfresh]
  split
  · simp
  · split <;> simp

theorem handleEvent_dedup_lookup_none (env : Env) (now : Nat) (ev : SlackEvent)
    (st : BotState) (k : String) (hb : ev.bot_id = none)
    (hk : k ≠ eventCid ev) (h : mapLookup k st.dedup = none) :
    mapLookup k (handleEvent env now ev st).state.dedup = none := by
  rw [handleEvent_dedup_state env now ev st hb]
  have hpurge := mapLookup_dedupPurge_none k now st.dedup h
  by_cases hdup : (mapLookup (eventCid ev) (dedupPurge now st.dedup)).isSome
  · simp [is_duplicate, hdup, hpurge]
  · have hne : eventCid ev ≠ k := fun hh => hk hh.symm
    simp [is_duplicate, hdup, mapLookup_cons, hne, hpurge]

/-- Closed form of the collect block: one event extends `pedido` by
`pedidoAdd` and `texto` by `textoAdd`. -/
theorem collect_eq (env : Env) (ev : SlackEvent) (s : Session) :
    collect env ev s = ⟨s.pedido ++ pedidoAdd ev, s.texto ++ textoAdd env ev⟩ := by
  cases htext : ev.text with
  | none =>
    cases hfiles : ev.files with
    | nil => simp [collect, collectFile, collectText, pedidoAdd, textoAdd, htext, hfiles,
        String.append_assoc]
    | cons f fs =>
      cases hdl : env.download f.url_private_download <;>
        simp [collect, collectFile, collectText, pedidoAdd, textoAdd, htext, hfiles,
          hdl, String.append_assoc]
  | some t =>
    by_cases ht : t = "" <;>
      cases hfiles : ev.files with
      | nil =>
        simp [collect, collectFile, collectText, pedidoAdd, textoAdd, htext, hfiles,
          ht, String.append_assoc]
      | cons f fs =>
        cases hdl : env.download f.url_private_download <;>
          simp [collect, collectFile, collectText, pedidoAdd, textoAdd, htext, hfiles,
            hdl, ht, String.append_assoc]

theorem handleEvents_cons (env : Env) (n : Nat) (ev : SlackEvent)
    (rest : List (Nat × SlackEvent)) (st : BotState) :
    handleEvents env ((n, ev) :: rest) st =
      ((handleEvents env rest (handleEvent env n ev st).state).1,
       (handleEvent env n ev st).messages ++
         (handleEvents env rest (handleEvent env n ev st).state).2) := by
  simp [handleEvents]

/-- Through a batch of CONTINUE-classified, mutually fresh events for the
same key, the session accumulates the per-event contributions in order, and
exists afterwards whenever the batch is non-empty. -/
theorem handleEvents_continue_session (env : Env) (key : String)
    (evs : List (Nat × SlackEvent)) : ∀ (st : BotState),
    (∀ e ∈ evs, e.2.bot_id = none) →
    (∀ e ∈ evs, sess_key e.2 = key) →
    (∀ e ∈ evs, isTrigger (msg_low e.2) = false) →
    (∀ e ∈ evs, mapLookup (eventCid e.2) st.dedup = none) →
    List.Pairwise (fun a b => a ≠ b) (evs.map (fun e => eventCid e.2)) →
    ((mapLookup key (handleEvents env evs st).1.sessions).getD ⟨"", ""⟩ =
      ⟨((mapLookup key st.sessions).getD ⟨"", ""⟩).pedido ++
          concatAll (evs.map (fun e => pedidoAdd e.2)),
        ((mapLookup key st.sessions).getD ⟨"", ""⟩).texto ++
          concatAll (evs.map (fun e => textoAdd env e.2))⟩) ∧
    (evs ≠ [] →
      (mapLookup key (handleEvents env evs st).1.sessions).isSome = true) := by
  induction evs with
  | nil =>
    intro st _ _ _ _ _
    refine ⟨by simp [handleEvents, concatAll], fun h => absurd rfl h⟩
  | cons p rest ih =>
    obtain ⟨n, e⟩ := p
    intro st hb hk hnt hfresh hpw
    have hb1 : e.bot_id = none := hb (n, e) (by simp)
    have hk1 : sess_key e = key := hk (n, e) (by simp)
    have hnt1 : isTrigger (msg_low e) = false := hnt (n, e) (by simp)
    have hfresh1 : mapLookup (eventCid e) st.dedup = none := hfresh (n, e) (by simp)
    obtain ⟨hpw1, hpw'⟩ := List.pairwise_cons.mp hpw
    have hsessions : (handleEvent env n e st).state.sessions =
        mapInsert key (collect env e ((mapLookup key st.sessions).getD ⟨"", ""⟩))
          st.sessions := by
      by_cases hask : (mapLookup (sess_key e) st.asked_flag).getD false = true
      · rw [handleEvent_accumulated_eq env n e st hb1 hfresh1 hnt1 hask, hk1]
      · rw [handleEvent_prompted_eq env n e st hb1 hfresh1 hnt1
          (by simpa using hask), hk1]
    have hdedup : (handleEvent env n e st).state.dedup =
        (eventCid e, n) :: dedupPurge n st.dedup := by
      by_cases hask : (mapLookup (sess_key e) st.asked_flag).getD false = true
      · rw [handleEvent_accumulated_eq env n e st hb1 hfresh1 hnt1 hask]
      · rw [handleEvent_prompted_eq env n e st hb1 hfresh1 hnt1 (by simpa using hask)]
    have hfresh' : ∀ e' ∈ rest,
        mapLookup (eventCid e'.2) (handleEvent env n e st).state.dedup = none := by
      intro e' he'
      rw [hdedup, mapLookup_cons]
      have hne : eventCid e ≠ eventCid e'.2 :=
        hpw1 (eventCid e'.2) (List.mem_map_of_mem (fun x => eventCid x.2) he')
      rw [if_neg hne]
      exact mapLookup_dedupPurge_none _ n st.dedup (hfresh e' (by simp [he']))
    have ihr := ih (handleEvent env n e st).state
      (fun e' he' => hb e' (by simp [he']))
      (fun e' he' => hk e' (by simp [he']))
      (fun e' he' => hnt e' (by simp [he']))
      hfresh' hpw'
    have hlook : mapLookup key (handleEvent env n e st).state.sessions =
        some (collect env e ((mapLookup key st.sessions).getD ⟨"", ""⟩)) := by
      rw [hsessions, mapLookup_mapInsert_self]
    constructor
    · rw [handleEvents_cons]
      have := ihr.1
      rw [hlook] at this
      rw [this, collect_eq]
      simp [concatAll, String.append_assoc]
    · intro _
      rw [handleEvents_cons]
      by_cases hrest : rest = []
      · subst hrest
        simp only [handleEvents]
        rw [hlook]
        rfl
      · simpa using ihr.2 hrest

/-- Through a batch of CONTINUE-classified, mutually fresh events for a key
whose prompted flag is already set, the handler stays silent (no outbound
message at all) and the flag stays set. -/
theorem handleEvents_silent (env : Env) (key : String)
    (evs : List (Nat × SlackEvent)) : ∀ (st : BotState),
    (∀ e ∈ evs, e.2.bot_id = none) →
    (∀ e ∈ evs, sess_key e.2 = key) →
    (∀ e ∈ evs, isTrigger (msg_low e.2) = false) →
    (∀ e ∈ evs, mapLookup (eventCid e.2) st.dedup = none) →
    List.Pairwise (fun a b => a ≠ b) (evs.map (fun e => eventCid e.2)) →
    (mapLookup key st.asked_flag).getD false = true →
    (handleEvents env evs st).2 = [] ∧
    (mapLookup key (handleEvents env evs st).1.asked_flag).getD false = true := by
  induction evs with
  | nil =>
    intro st _ _ _ _ _ hflag
    exact ⟨rfl, hflag⟩
  | cons p rest ih =>
    obtain ⟨n, e⟩ := p
    intro st hb hk hnt hfresh hpw hflag
    have hb1 : e.bot_id = none := hb (n, e) (by simp)
    have hk1 : sess_key e = key := hk (n, e) (by simp)
    have hnt1 : isTrigger (msg_low e) = false := hnt (n, e) (by simp)
    have hfresh1 : mapLookup (eventCid e) st.dedup = none := hfresh (n, e) (by simp)
    obtain ⟨hpw1, hpw'⟩ := List.pairwise_cons.mp hpw
    have hstep := handleEvent_accumulated_eq env n e st hb1 hfresh1 hnt1
      (by rw [hk1]; exact hflag)
    have hfresh' : ∀ e' ∈ rest,
        mapLookup (eventCid e'.2) (handleEvent env n e st).state.dedup = none := by
      intro e' he'
      rw [hstep]
      simp only [mapLookup_cons]
      have hne : eventCid e ≠ eventCid e'.2 :=
        hpw1 (eventCid e'.2) (List.mem_map_of_mem (fun x => eventCid x.2) he')
      rw [if_neg hne]
      exact mapLookup_dedupPurge_none _ n st.dedup (hfresh e' (by simp [he']))
    have hflag' : (mapLookup key (handleEvent env n e st).state.asked_flag).getD
        false = true := by
      rw [hstep]
      exact hflag
    have ihr := ih (handleEvent env n e st).state
      (fun e' he' => hb e' (by simp [he']))
      (fun e' he' => hk e' (by simp [he']))
      (fun e' he' => hnt e' (by simp [he']))
      hfresh' hpw' hflag'
    rw [handleEvents_cons]
    refine ⟨?_, ihr.2⟩
    rw [hstep] at ihr ⊢
    simp [ihr.1]

/-! ## Suffix and slicing helper lemmas (for `extract`) -/

theorem pyslice_length_le (s : String) (n : Nat) : (pyslice s n).length ≤ n := by
  show (s.data.take n).length ≤ n
  rw [List.length_take]
  omega

theorem endswith_take (s suf : String) (h : endswith s suf = true) :
    s.data.reverse.take suf.data.length = suf.data.reverse := by
  have hs : suf.data <:+ s.data := by
    simpa [endswith] using h
  obtain ⟨t, ht⟩ := hs
  have hrev : s.data.reverse = suf.data.reverse ++ t.reverse := by
    rw [← ht, List.reverse_append]
  rw [hrev]
  exact List.take_left' (by rw [List.length_reverse])

theorem endswith_both (s a b : String) (ha : endswith s a = true)
    (hb : endswith s b = true) :
    a.data.reverse.take (min a.data.length b.data.length) =
      b.data.reverse.take (min a.data.length b.data.length) := by
  have t1 := endswith_take s a ha
  have t2 := endswith_take s b hb
  have h1 : a.data.reverse.take (min a.data.length b.data.length) =
      s.data.reverse.take (min a.data.length b.data.length) := by
    rw [← t1, List.take_take, Nat.min_eq_left (Nat.min_le_left _ _)]
  have h2 : b.data.reverse.take (min a.data.length b.data.length) =
      s.data.reverse.take (min a.data.length b.data.length) := by
    rw [← t2, List.take_take, Nat.min_eq_left (Nat.min_le_right _ _)]
  rw [h1, h2]

theorem endswith_false_of (s a b : String) (h : endswith s b = true)
    (hne : a.data.reverse.take (min a.data.length b.data.length) ≠
      b.data.reverse.take (min a.data.length b.data.length)) :
    endswith s a = false := by
  cases hx : endswith s a with
  | false => rfl
  | true => exact absurd (endswith_both s a b hx h) hne

/-! ## Claim theorems -/

set_option maxRecDepth 4000 in
/-- C1, counterexample: the claim says the poller fails with `TimeoutError`
at, and not before, the 2-minute ceiling.  Against a service that never
reports a terminal status, the polling loop of `slide_url` has produced no
result after 30 iterations (the 2 minutes of 4-second sleeps the claim
allows), none after 31, and none after 450 (half an hour): there is no
ceiling and no `TimeoutError` — the `while True` loop just keeps polling. -/
theorem C1_counterexample :
    slide_urlRun alwaysRunning 30 = none ∧
    slide_urlRun alwaysRunning 31 = none ∧
    slide_urlRun alwaysRunning 450 = none :=
  ⟨rfl, rfl, rfl⟩

/-- C1 (amended): `slide_url` has no wall-clock ceiling at all.  For every
service behaviour that never reports `SUCCESS` or `FAILED`, the polling
loop never produces a result, however many iterations it is allowed: `run`
does not terminate, and no `TimeoutError` exists in the code. -/
theorem C1_no_timeout (poll : Nat → PollResponse)
    (h : ∀ i, (poll i).task_status ≠ "SUCCESS" ∧ (poll i).task_status ≠ "FAILED") :
    ∀ (i fuel : Nat), slide_urlAux poll i fuel = none := by
  intro i fuel
  induction fuel generalizing i with
  | zero => rfl
  | succ fuel ih => simp [slide_urlAux, (h i).1, (h i).2, ih]

/-- C1 witness: the amended theorem evaluated against the all-`RUNNING`
service at 31 iterations. -/
theorem C1_no_timeout_witness : slide_urlAux alwaysRunning 0 31 = none := by
  have h : ∀ i, (alwaysRunning i).task_status ≠ "SUCCESS" ∧
      (alwaysRunning i).task_status ≠ "FAILED" := by
    intro i
    show ("RUNNING" : String) ≠ "SUCCESS" ∧ ("RUNNING" : String) ≠ "FAILED"
    exact ⟨by decide, by decide⟩
  exact C1_no_timeout alwaysRunning h 0 31

/-- C2: for every GENERATE-classified event that is actually processed
(not self-authored, not a dedup hit), after the handler returns the session
and the prompted flag for that key are gone, whatever the environment —
the generation attempt may have completed with any value or raised any
exception (`env.genAttempt` is arbitrary), and the outcome of the terminal
Responder post is never consulted. -/
theorem C2_session_cleared (env : Env) (now : Nat) (ev : SlackEvent) (st : BotState)
    (hb : ev.bot_id = none)
    (hfresh : mapLookup (eventCid ev) st.dedup = none)
    (htrig : isTrigger (msg_low ev) = true) :
    mapLookup (sess_key ev) (handleEvent env now ev st).state.sessions = none ∧
    mapLookup (sess_key ev) (handleEvent env now ev st).state.asked_flag = none ∧
    (handleEvent env now ev st).outcome = .dispatched := by
  rw [handleEvent_dispatched_eq env now ev st hb hfresh htrig]
  exact ⟨mapLookup_mapErase_self _ _, mapLookup_mapErase_self _ _, rfl⟩

/-- C2 witness: a live session and set flag for key `U1`, a `"pronto"`
event, an environment whose generation attempt raises — afterwards both
dicts have no entry for `U1`. -/
theorem C2_session_cleared_witness :
    mapLookup (sess_key (dmEvent (some "c2w") "2.0" "pronto"))
      (handleEvent errEnv 5 (dmEvent (some "c2w") "2.0" "pronto")
        ⟨[("U1", ⟨" hi", ""⟩)], [("U1", true)], []⟩).state.sessions = none ∧
    mapLookup (sess_key (dmEvent (some "c2w") "2.0" "pronto"))
      (handleEvent errEnv 5 (dmEvent (some "c2w") "2.0" "pronto")
        ⟨[("U1", ⟨" hi", ""⟩)], [("U1", true)], []⟩).state.asked_flag = none ∧
    (handleEvent errEnv 5 (dmEvent (some "c2w") "2.0" "pronto")
        ⟨[("U1", ⟨" hi", ""⟩)], [("U1", true)], []⟩).outcome = .dispatched :=
  C2_session_cleared errEnv 5 (dmEvent (some "c2w") "2.0" "pronto")
    ⟨[("U1", ⟨" hi", ""⟩)], [("U1", true)], []⟩ rfl rfl (by decide)

/-- C3: for two processed-then-redelivered events sharing the same non-empty
identifier within the 300-second window, the first is processed (not
classified duplicate), every later one is ignored — duplicate outcome, no
message, sessions and flags untouched — the first-seen record survives the
later lookup (so still later deliveries are also ignored), and both
lookups leave no record older than the window in the dedup dict. -/
theorem C3_dedup_first_only (env : Env) (now1 now2 : Nat) (e1 e2 : SlackEvent)
    (st : BotState)
    (hb1 : e1.bot_id = none) (hb2 : e2.bot_id = none)
    (hcid : eventCid e2 = eventCid e1) (_hne : eventCid e1 ≠ "")
    (hfresh : mapLookup (eventCid e1) st.dedup = none)
    (hwin : now2 - now1 ≤ 300) :
    (handleEvent env now1 e1 st).outcome ≠ .duplicate ∧
    (handleEvent env now2 e2 (handleEvent env now1 e1 st).state).outcome =
      .duplicate ∧
    (handleEvent env now2 e2 (handleEvent env now1 e1 st).state).messages = [] ∧
    (handleEvent env now2 e2 (handleEvent env now1 e1 st).state).state.sessions =
      (handleEvent env now1 e1 st).state.sessions ∧
    (handleEvent env now2 e2 (handleEvent env now1 e1 st).state).state.asked_flag =
      (handleEvent env now1 e1 st).state.asked_flag ∧
    mapLookup (eventCid e1)
      (handleEvent env now2 e2 (handleEvent env now1 e1 st).state).state.dedup =
        some now1 ∧
    (∀ p ∈ (handleEvent env now1 e1 st).state.dedup, now1 - p.2 ≤ 300) ∧
    (∀ p ∈ (handleEvent env now2 e2 (handleEvent env now1 e1 st).state).state.dedup,
      now2 - p.2 ≤ 300) := by
  have hd1 : (handleEvent env now1 e1 st).state.dedup =
      (eventCid e1, now1) :: dedupPurge now1 st.dedup := by
    rw [handleEvent_dedup_state env now1 e1 st hb1,
      is_duplicate_fresh (eventCid e1) now1 st.dedup hfresh]
  have hl1 : mapLookup (eventCid e1) (handleEvent env now1 e1 st).state.dedup =
      some now1 := by
    rw [hd1, mapLookup_cons, if_pos rfl]
  have hl1' : mapLookup (eventCid e2) (handleEvent env now1 e1 st).state.dedup =
      some now1 := by
    rw [hcid]
    exact hl1
  have hr2 := handleEvent_dup_eq env now2 e2 (handleEvent env now1 e1 st).state
    now1 hb2 hl1' hwin
  refine ⟨handleEvent_fresh_not_dup env now1 e1 st hb1 hfresh, ?_, ?_, ?_, ?_, ?_,
    ?_, ?_⟩
  · rw [hr2]
  · rw [hr2]
  · rw [hr2]
  · rw [hr2]
  · rw [hr2]
    exact mapLookup_dedupPurge_some (eventCid e1) now2 now1
      (handleEvent env now1 e1 st).state.dedup hl1 hwin
  · intro p hp
    rw [hd1] at hp
    rcases List.mem_cons.mp hp with h | h
    · subst h
      omega
    · exact mem_dedupPurge now1 st.dedup p h
  · intro p hp
    rw [hr2] at hp
    exact mem_dedupPurge now2 (handleEvent env now1 e1 st).state.dedup p hp

/-- C3 witness: identifier `c3w`, second delivery 300 seconds after the
first (the window boundary): ignored, silent, record retained. -/
theorem C3_dedup_first_only_witness :
    (handleEvent errEnv 100 (dmEvent (some "c3w") "3.0" "hello")
      emptyState).outcome ≠ .duplicate ∧
    (handleEvent errEnv 400 (dmEvent (some "c3w") "3.5" "world")
      (handleEvent errEnv 100 (dmEvent (some "c3w") "3.0" "hello")
        emptyState).state).outcome = .duplicate ∧
    (handleEvent errEnv 400 (dmEvent (some "c3w") "3.5" "world")
      (handleEvent errEnv 100 (dmEvent (some "c3w") "3.0" "hello")
        emptyState).state).messages = [] ∧
    mapLookup (eventCid (dmEvent (some "c3w") "3.0" "hello"))
      (handleEvent errEnv 400 (dmEvent (some "c3w") "3.5" "world")
        (handleEvent errEnv 100 (dmEvent (some "c3w") "3.0" "hello")
          emptyState).state).state.dedup = some 100 := by
  have h := C3_dedup_first_only errEnv 100 400 (dmEvent (some "c3w") "3.0" "hello")
    (dmEvent (some "c3w") "3.5" "world") emptyState rfl rfl rfl (by decide) rfl
    (by decide)
  exact ⟨h.1, h.2.1, h.2.2.1, h.2.2.2.2.2.1⟩

/-- C5, counterexample: the claim says a missing `client_msg_id` means the
event is always processed.  Here two events without a `client_msg_id`
share the Slack timestamp `111.0` (as a redelivery does); the identifier
falls back to `ts`, so the second, 10 seconds later, is ignored as a
duplicate — it is not processed. -/
theorem C5_counterexample :
    eventCid ⟨none, none, "111.0", none, "U1", "C1", some "im", some "hello", []⟩ =
      "111.0" ∧
    (handleEvent errEnv 20
      ⟨none, none, "111.0", none, "U1", "C1", some "im", some "world", []⟩
      (handleEvent errEnv 10
        ⟨none, none, "111.0", none, "U1", "C1", some "im", some "hello", []⟩
        emptyState).state).outcome = .duplicate :=
  ⟨rfl, by decide⟩

/-- C5 (amended): an event with a missing or empty `client_msg_id` is not
treated as never-duplicate.  Its dedup identifier falls back to the
event's `ts`, and a later event whose identifier resolves to the same `ts`
within the window is ignored as a duplicate like any other redelivery. -/
theorem C5_ts_fallback (env : Env) (now1 now2 : Nat) (e1 e2 : SlackEvent)
    (st : BotState)
    (hb1 : e1.bot_id = none) (hb2 : e2.bot_id = none)
    (hm1 : e1.client_msg_id = none ∨ e1.client_msg_id = some "")
    (hm2 : e2.client_msg_id = none ∨ e2.client_msg_id = some "")
    (hts : e2.ts = e1.ts)
    (hfresh : mapLookup e1.ts st.dedup = none)
    (hwin : now2 - now1 ≤ 300) :
    eventCid e1 = e1.ts ∧
    (handleEvent env now2 e2 (handleEvent env now1 e1 st).state).outcome =
      .duplicate := by
  have hc1 : eventCid e1 = e1.ts := by
    rcases hm1 with h | h <;> simp [eventCid, pyOr, h]
  have hc2 : eventCid e2 = e1.ts := by
    rcases hm2 with h | h <;> simp [eventCid, pyOr, h, hts]
  have hd1 : (handleEvent env now1 e1 st).state.dedup =
      (e1.ts, now1) :: dedupPurge now1 st.dedup := by
    rw [handleEvent_dedup_state env now1 e1 st hb1, hc1,
      is_duplicate_fresh e1.ts now1 st.dedup hfresh]
  have hl : mapLookup (eventCid e2) (handleEvent env now1 e1 st).state.dedup =
      some now1 := by
    rw [hc2, hd1, mapLookup_cons, if_pos rfl]
  refine ⟨hc1, ?_⟩
  rw [handleEvent_dup_eq env now2 e2 (handleEvent env now1 e1 st).state now1
    hb2 hl hwin]

/-- C5 witness: the amended theorem evaluated on two `client_msg_id`-less
events with the shared timestamp `111.5`. -/
theorem C5_ts_fallback_witness :
    eventCid ⟨none, none, "111.5", none, "U2", "C2", some "im", some "a", []⟩ =
      "111.5" ∧
    (handleEvent errEnv 40
      ⟨none, some "", "111.5", none, "U2", "C2", some "im", some "b", []⟩
      (handleEvent errEnv 30
        ⟨none, none, "111.5", none, "U2", "C2", some "im", some "a", []⟩
        emptyState).state).outcome = .duplicate :=
  C5_ts_fallback errEnv 30 40
    ⟨none, none, "111.5", none, "U2", "C2", some "im", some "a", []⟩
    ⟨none, some "", "111.5", none, "U2", "C2", some "im", some "b", []⟩
    emptyState rfl rfl (Or.inl rfl) (Or.inr rfl) rfl rfl (by decide)

/-- C4, counterexample: on status `FAILED` the poller does not fail with a
`GenerationFailedError` — it returns the string `"Erro ao gerar PPT."` as
its ordinary result — and the handler then sends the success-shaped
message, the single template `"Aqui está sua apresentação: {url}"`, with
that sentinel in the locator slot. -/
theorem C4_counterexample :
    slide_urlRun failsImmediately 1 = some "Erro ao gerar PPT." ∧
    (handleEvent (okEnv "Erro ao gerar PPT.") 10 (dmEvent (some "c4c") "4.0" "gera")
        emptyState).messages =
      [⟨"U1", none, "⏳ Gerando apresentação, aguarde…"⟩,
       ⟨"U1", none, "Aqui está sua apresentação: Erro ao gerar PPT."⟩] :=
  ⟨rfl, by decide⟩

/-- C4 (amended): when a poll reports `FAILED`, the polling loop returns the
sentinel string `"Erro ao gerar PPT."` as a normal result instead of
raising; the handler substitutes whatever the generation attempt returned
into the one success-shaped template, so the failure reaches the user
inside `"Aqui está sua apresentação: ..."`, distinguishable from a success
only by the sentinel text standing where the locator would. -/
theorem C4_failed_sentinel (poll : Nat → PollResponse) (i fuel : Nat)
    (hf : (poll i).task_status = "FAILED")
    (env : Env) (now : Nat) (ev : SlackEvent) (st : BotState)
    (hb : ev.bot_id = none)
    (hfresh : mapLookup (eventCid ev) st.dedup = none)
    (htrig : isTrigger (msg_low ev) = true)
    (hgen : env.genAttempt
      (collect env ev ((mapLookup (sess_key ev) st.sessions).getD ⟨"", ""⟩)).texto
      (collect env ev ((mapLookup (sess_key ev) st.sessions).getD ⟨"", ""⟩)).pedido =
        .ok "Erro ao gerar PPT.") :
    slide_urlAux poll i (fuel + 1) = some "Erro ao gerar PPT." ∧
    (handleEvent env now ev st).messages =
      [workingMsg ev, finalMsg ev "Erro ao gerar PPT."] := by
  constructor
  · have hns : ¬ (poll i).task_status = "SUCCESS" := by rw [hf]; decide
    simp [slide_urlAux, hns, hf]
  · rw [handleEvent_dispatched_eq env now ev st hb hfresh htrig, hgen]
    rfl

/-- C4 witness: the amended theorem evaluated on the immediately-failing
service and a concrete `"gera"` event. -/
theorem C4_failed_sentinel_witness :
    slide_urlAux failsImmediately 0 1 = some "Erro ao gerar PPT." ∧
    (handleEvent (okEnv "Erro ao gerar PPT.") 11 (dmEvent (some "c4w") "4.1" "gera")
        emptyState).messages =
      [workingMsg (dmEvent (some "c4w") "4.1" "gera"),
       finalMsg (dmEvent (some "c4w") "4.1" "gera") "Erro ao gerar PPT."] :=
  C4_failed_sentinel failsImmediately 0 0 rfl (okEnv "Erro ao gerar PPT.") 11
    (dmEvent (some "c4w") "4.1" "gera") emptyState rfl rfl (by decide) rfl

/-- C7, counterexample: the claim says each append is separated by a
newline.  Two CONTINUE events with texts `a` then `b` leave
`request = " a b"` — the code appends `" " + txt`, a space delimiter (with
a leading space), not the claimed newline-joined `"a\nb"`. -/
theorem C7_counterexample :
    mapLookup "U1" (handleEvents errEnv
      [(10, dmEvent (some "c7a") "7.0" "a"), (20, dmEvent (some "c7b") "7.1" "b")]
      emptyState).1.sessions = some ⟨" a b", ""⟩ ∧
    (" a b" : String) ≠ "a\nb" :=
  ⟨by decide, by decide⟩

/-- C7 (amended): over any batch of CONTINUE-classified events on one key,
`request` is the prior value plus the ordered concatenation of the events'
texts each prefixed by a single space (`pedidoAdd`), and `body` is the
prior value plus the ordered concatenation of the first-file extraction
results each prefixed by a newline (`textoAdd`) — appends in arrival
order, never overwriting. -/
theorem C7_accumulation (env : Env) (key : String)
    (evs : List (Nat × SlackEvent)) (st : BotState)
    (hne : evs ≠ [])
    (hb : ∀ e ∈ evs, e.2.bot_id = none)
    (hk : ∀ e ∈ evs, sess_key e.2 = key)
    (hnt : ∀ e ∈ evs, isTrigger (msg_low e.2) = false)
    (hfresh : ∀ e ∈ evs, mapLookup (eventCid e.2) st.dedup = none)
    (hpw : List.Pairwise (fun a b => a ≠ b) (evs.map (fun e => eventCid e.2))) :
    mapLookup key (handleEvents env evs st).1.sessions =
      some ⟨((mapLookup key st.sessions).getD ⟨"", ""⟩).pedido ++
          concatAll (evs.map (fun e => pedidoAdd e.2)),
        ((mapLookup key st.sessions).getD ⟨"", ""⟩).texto ++
          concatAll (evs.map (fun e => textoAdd env e.2))⟩ := by
  obtain ⟨heq, hsome⟩ :=
    handleEvents_continue_session env key evs st hb hk hnt hfresh hpw
  have h1 := hsome hne
  cases hh : mapLookup key (handleEvents env evs st).1.sessions with
  | none =>
    rw [hh] at h1
    simp at h1
  | some s =>
    rw [hh] at heq
    simp only [Option.getD_some] at heq
    rw [heq]

/-- C7 witness: texts `x` then `y` from the empty state give
`request = " x y"` and an empty body. -/
theorem C7_accumulation_witness :
    mapLookup "U1" (handleEvents errEnv
      [(10, dmEvent (some "c7w1") "7.2" "x"), (20, dmEvent (some "c7w2") "7.3" "y")]
      emptyState).1.sessions = some ⟨" x y", ""⟩ := by
  have h := C7_accumulation errEnv "U1"
    [(10, dmEvent (some "c7w1") "7.2" "x"), (20, dmEvent (some "c7w2") "7.3" "y")]
    emptyState (List.cons_ne_nil _ _) (by decide) (by decide) (by decide)
    (by decide) (by decide)
  exact h

/-- C8, counterexample: an event carrying two file references; the handler
downloads and extracts only the first — the second file's content (`TWO`
in this environment) never reaches the session body. -/
theorem C8_counterexample :
    mapLookup "U1" (handleEvent txtEnv 8
      (dmFileEvent (some "c8c") "8.0" "report" [⟨"f1"⟩, ⟨"f2"⟩])
      emptyState).state.sessions = some ⟨" report", "\nONE"⟩ ∧
    ¬ ("TWO".data <:+:
      ((mapLookup "U1" (handleEvent txtEnv 8
        (dmFileEvent (some "c8c") "8.0" "report" [⟨"f1"⟩, ⟨"f2"⟩])
        emptyState).state.sessions).getD ⟨"", ""⟩).texto.data) :=
  ⟨by decide, by decide⟩

/-- C8 (amended): the handler consults only the event's first file
reference — its whole result is invariant under the remaining references —
and one event grows the body exactly by the first file's extraction, a
newline plus the extracted text when the download succeeds and nothing
otherwise (`textoAdd`). -/
theorem C8_first_file_only (env : Env) (now : Nat) (ev : SlackEvent)
    (st : BotState) (f : FileRef) (r1 r2 : List FileRef) :
    handleEvent env now { ev with files := f :: r1 } st =
      handleEvent env now { ev with files := f :: r2 } st ∧
    ∀ (s : Session), (collect env ev s).texto = s.texto ++ textoAdd env ev := by
  constructor
  · rfl
  · intro s
    rw [collect_eq]

/-- C9: for a key not yet prompted, the first CONTINUE-classified event
returns the prompted outcome and sets the flag, and the whole batch —
first event plus any number of further CONTINUE events for that key —
posts exactly the one acknowledgement prompt, the later events
accumulating silently. -/
theorem C9_prompt_once (env : Env) (key : String) (n : Nat) (e : SlackEvent)
    (rest : List (Nat × SlackEvent)) (st : BotState)
    (hb : ∀ x ∈ (n, e) :: rest, x.2.bot_id = none)
    (hk : ∀ x ∈ (n, e) :: rest, sess_key x.2 = key)
    (hnt : ∀ x ∈ (n, e) :: rest, isTrigger (msg_low x.2) = false)
    (hfresh : ∀ x ∈ (n, e) :: rest, mapLookup (eventCid x.2) st.dedup = none)
    (hpw : List.Pairwise (fun a b => a ≠ b)
      (((n, e) :: rest).map (fun x => eventCid x.2)))
    (hflag : (mapLookup key st.asked_flag).getD false = false) :
    (handleEvent env n e st).outcome = .prompted ∧
    mapLookup key (handleEvent env n e st).state.asked_flag = some true ∧
    (handleEvents env ((n, e) :: rest) st).2 = [promptMsg e] := by
  have hb1 : e.bot_id = none := hb (n, e) (by simp)
  have hk1 : sess_key e = key := hk (n, e) (by simp)
  have hnt1 : isTrigger (msg_low e) = false := hnt (n, e) (by simp)
  have hfresh1 : mapLookup (eventCid e) st.dedup = none := hfresh (n, e) (by simp)
  obtain ⟨hpw1, hpw'⟩ := List.pairwise_cons.mp hpw
  have hstep := handleEvent_prompted_eq env n e st hb1 hfresh1 hnt1
    (by rw [hk1]; exact hflag)
  have hfl : mapLookup key (handleEvent env n e st).state.asked_flag = some true := by
    rw [hstep]
    simp only [hk1]
    exact mapLookup_mapInsert_self key true st.asked_flag
  refine ⟨by rw [hstep], hfl, ?_⟩
  have hfresh' : ∀ x ∈ rest,
      mapLookup (eventCid x.2) (handleEvent env n e st).state.dedup = none := by
    intro x hx
    rw [hstep]
    simp only [mapLookup_cons]
    have hne : eventCid e ≠ eventCid x.2 :=
      hpw1 (eventCid x.2) (List.mem_map_of_mem (fun y => eventCid y.2) hx)
    rw [if_neg hne]
    exact mapLookup_dedupPurge_none _ n st.dedup (hfresh x (by simp [hx]))
  have hsilent := handleEvents_silent env key rest (handleEvent env n e st).state
    (fun x hx => hb x (by simp [hx]))
    (fun x hx => hk x (by simp [hx]))
    (fun x hx => hnt x (by simp [hx]))
    hfresh' hpw' (by rw [hfl]; rfl)
  rw [hstep] at hsilent
  rw [handleEvents_cons, hstep]
  simp [hsilent.1]

/-- C9 witness: two CONTINUE events on key `U1` starting unprompted — the
first is prompted, the flag is set, and the only message of the whole
batch is the one acknowledgement prompt. -/
theorem C9_prompt_once_witness :
    (handleEvent errEnv 10 (dmEvent (some "c9a") "9.2" "hi") emptyState).outcome =
      .prompted ∧
    mapLookup "U1" (handleEvent errEnv 10 (dmEvent (some "c9a") "9.2" "hi")
      emptyState).state.asked_flag = some true ∧
    (handleEvents errEnv
      [(10, dmEvent (some "c9a") "9.2" "hi"), (20, dmEvent (some "c9b") "9.3" "more")]
      emptyState).2 = [promptMsg (dmEvent (some "c9a") "9.2" "hi")] :=
  C9_prompt_once errEnv "U1" 10 (dmEvent (some "c9a") "9.2" "hi")
    [(20, dmEvent (some "c9b") "9.3" "more")] emptyState (by decide) (by decide)
    (by decide) (by decide) (by decide) rfl

/-- C6: the trigger classification is a pure function of the event text —
the handler dispatches exactly when the lower-cased, whitespace-trimmed
text is `"gera"` or `"pronto"` (the fixed vocabulary), and never
dispatches on a missing text. -/
theorem C6_trigger_classifier (env : Env) (now : Nat) (ev : SlackEvent)
    (st : BotState) (hb : ev.bot_id = none)
    (hfresh : mapLookup (eventCid ev) st.dedup = none) :
    ((handleEvent env now ev st).outcome = .dispatched ↔
      (pystrip (pylower (ev.text.getD "")) = "gera" ∨
        pystrip (pylower (ev.text.getD "")) = "pronto")) ∧
    (∀ ev2 : SlackEvent, ev2.text = ev.text → msg_low ev2 = msg_low ev) ∧
    (ev.text = none → (handleEvent env now ev st).outcome ≠ .dispatched) := by
  have hiff : (handleEvent env now ev st).outcome = .dispatched ↔
      (pystrip (pylower (ev.text.getD "")) = "gera" ∨
        pystrip (pylower (ev.text.getD "")) = "pronto") := by
    by_cases htrig : isTrigger (msg_low ev) = true
    · rw [handleEvent_dispatched_eq env now ev st hb hfresh htrig]
      have hdisj : pystrip (pylower (ev.text.getD "")) = "gera" ∨
          pystrip (pylower (ev.text.getD "")) = "pronto" := by
        simpa [isTrigger, msg_low] using htrig
      exact ⟨fun _ => hdisj, fun _ => rfl⟩
    · have htrig' : isTrigger (msg_low ev) = false := by simpa using htrig
      have hout : (handleEvent env now ev st).outcome ≠ .dispatched := by
        by_cases hask : (mapLookup (sess_key ev) st.asked_flag).getD false = true
        · rw [handleEvent_accumulated_eq env now ev st hb hfresh htrig' hask]
          simp
        · rw [handleEvent_prompted_eq env now ev st hb hfresh htrig'
            (by simpa using hask)]
          simp
      constructor
      · intro h
        exact absurd h hout
      · intro h
        exfalso
        apply htrig
        rcases h with h | h <;> simp [isTrigger, msg_low, h]
  refine ⟨hiff, fun ev2 h2 => by simp [msg_low, h2], fun htext h => ?_⟩
  have hd := hiff.mp h
  rw [htext] at hd
  rcases hd with hd | hd <;> exact absurd hd (by decide)

/-- C6 witness: a mixed-case, whitespace-padded `" GeRa "` dispatches. -/
theorem C6_trigger_classifier_witness :
    (handleEvent errEnv 6 (dmEvent (some "c6w") "6.0" " GeRa ") emptyState).outcome =
      .dispatched :=
  (C6_trigger_classifier errEnv 6 (dmEvent (some "c6w") "6.0" " GeRa ") emptyState
      rfl rfl).1.mpr (Or.inl (by decide))

/-- C10: `extract` returns at most 4000 code points for `.pdf`, `.docx`
and `.txt` paths, a result determined by the first 20 rows of the first
sheet for `.xlsx` paths, and the empty string for a path ending in none of
the four extensions. -/
theorem C10_extract (path : String) (fd fd' : FileData) :
    (endswith path ".pdf" = true → (extract path fd).length ≤ 4000) ∧
    (endswith path ".docx" = true → (extract path fd).length ≤ 4000) ∧
    (endswith path ".txt" = true → (extract path fd).length ≤ 4000) ∧
    (endswith path ".xlsx" = true → fd.xlsxRows.take 20 = fd'.xlsxRows.take 20 →
      extract path fd = extract path fd') ∧
    (endswith path ".xlsx" = false → endswith path ".pdf" = false →
      endswith path ".docx" = false → endswith path ".txt" = false →
      extract path fd = "") := by
  refine ⟨?_, ?_, ?_, ?_, ?_⟩
  · intro hpdf
    have h1 : endswith path ".xlsx" = false :=
      endswith_false_of path ".xlsx" ".pdf" hpdf (by decide)
    simp only [extract, h1, hpdf, Bool.false_eq_true, if_false, if_true]
    exact pyslice_length_le _ _
  · intro hdocx
    have h1 : endswith path ".xlsx" = false :=
      endswith_false_of path ".xlsx" ".docx" hdocx (by decide)
    have h2 : endswith path ".pdf" = false :=
      endswith_false_of path ".pdf" ".docx" hdocx (by decide)
    simp only [extract, h1, h2, hdocx, Bool.false_eq_true, if_false, if_true]
    exact pyslice_length_le _ _
  · intro htxt
    have h1 : endswith path ".xlsx" = false :=
      endswith_false_of path ".xlsx" ".txt" htxt (by decide)
    have h2 : endswith path ".pdf" = false :=
      endswith_false_of path ".pdf" ".txt" htxt (by decide)
    have h3 : endswith path ".docx" = false :=
      endswith_false_of path ".docx" ".txt" htxt (by decide)
    simp only [extract, h1, h2, h3, htxt, Bool.false_eq_true, if_false, if_true]
    exact pyslice_length_le _ _
  · intro hx hrows
    simp only [extract, hx, if_true]
    rw [hrows]
  · intro h1 h2 h3 h4
    simp only [extract, h1, h2, h3, h4, Bool.false_eq_true, if_false]

/-- C10 witness: a `.pdf` path obeys the 4000-character bound and an
unknown extension extracts to the empty string. -/
theorem C10_extract_witness :
    (extract "a.pdf" ⟨[["r"]], [some "hello", none], ["p"], "t"⟩).length ≤ 4000 ∧
    extract "a.bin" ⟨[["r"]], [some "hello", none], ["p"], "t"⟩ = "" :=
  ⟨(C10_extract "a.pdf" ⟨[["r"]], [some "hello", none], ["p"], "t"⟩
      ⟨[["r"]], [some "hello", none], ["p"], "t"⟩).1 (by decide),
   (C10_extract "a.bin" ⟨[["r"]], [some "hello", none], ["p"], "t"⟩
      ⟨[["r"]], [some "hello", none], ["p"], "t"⟩).2.2.2.2 (by decide) (by decide)
     (by decide) (by decide)⟩

end PPTWiz
